import Mathlib

/-!
# Verification of the `scrap_back` valuation engine

Shallow embedding of the land-valuation core of the repository:

* `calculateLandValue` — `services/valuationService.js`
  ("FIX FOR MISSING COMPARABLES" revision, the one with the fallback
  baseline, the `price/area` derivation, the midpoint median and the
  limited-data branch).
* the staged comparable-selection pipeline and the request validation of
  `routes/valuation.js` (`router.post('/estimate')`).

JavaScript numbers are modelled as exact rationals (`ℚ`); the decimal
literals of the source (1.15, 0.7, …) become the corresponding rationals
(23/20, 7/10, …).  `Math.floor(n * 0.25)`, `Math.floor(n * 0.75)` and
`Math.floor(n / 2)` on a length `n` are exact in binary floating point for
every feasible array length, so they are embedded as the natural-number
divisions `n / 4`, `3 * n / 4` and `n / 2`.  A field that may be absent
(`undefined`) is an `Option ℚ`; JavaScript truthiness of a numeric field
is `truthy`.  Divisions whose denominator the source does not guard
(which would yield `NaN`/`Infinity` in JavaScript) are modelled through
the `Option`-valued `mean`, so a `none` result marks the places where the
source would not produce a real number.
-/

namespace ScrapBack

/-- The three boolean feature flags of a subject parcel or comparable
(`features.nearWater`, `features.roadAccess`, `features.utilities`). -/
structure Features where
  nearWater : Bool
  roadAccess : Bool
  utilities : Bool
deriving DecidableEq, Repr

/-- A comparable property record as consumed by `calculateLandValue`:
`price`, `area` and `pricePerSqFt` may each be absent. -/
structure Comparable where
  price : Option ℚ
  area : Option ℚ
  pricePerSqFt : Option ℚ
deriving DecidableEq, Repr

/-- One entry of `valuationFactors`: `{ factor, adjustment }`. -/
structure Factor where
  factor : String
  adjustment : String
deriving DecidableEq, Repr

/-- The object returned by `calculateLandValue`. -/
structure ValuationResult where
  estimatedValue : ℚ
  avgPricePerSqFt : ℚ
  valuationFactors : List Factor
deriving DecidableEq, Repr

/-- JavaScript truthiness of a possibly-absent numeric field: `undefined`
and `0` are falsy, every other (finite) number is truthy. -/
def truthy (o : Option ℚ) : Bool :=
  match o with
  | some x => decide (x ≠ 0)
  | none => false

/-- The filter predicate
`p => p.price && (p.pricePerSqFt || p.area > 0)`
(valuationService.js, fix revision, line 86).  `p.area > 0` is false when
`area` is absent. -/
def validFilter (p : Comparable) : Bool :=
  truthy p.price &&
    (truthy p.pricePerSqFt ||
      (match p.area with
       | some a => decide (0 < a)
       | none => false))

/-- `validComparables` (line 86). -/
def validComparables (comparables : List Comparable) : List Comparable :=
  comparables.filter validFilter

/-- The per-comparable mapping of lines 132-141: use `pricePerSqFt` when
truthy, else derive `price / area` when both are truthy, else `0`. -/
def effectivePricePerSqFt (property : Comparable) : ℚ :=
  if truthy property.pricePerSqFt then property.pricePerSqFt.getD 0
  else if truthy property.price && truthy property.area then
    property.price.getD 0 / property.area.getD 0
  else 0

/-- `pricePerSqFtValues` (lines 132-141): map the valid comparables
through `effectivePricePerSqFt` and keep the positive values. -/
def pricePerSqFtValues (comparables : List Comparable) : List ℚ :=
  ((validComparables comparables).map effectivePricePerSqFt).filter
    fun value => decide (0 < value)

/-- `[...pricePerSqFtValues].sort((a, b) => a - b)` (line 159): the
ascending sort of the sanitized values. -/
def sortedPricesOf (comparables : List Comparable) : List ℚ :=
  (pricePerSqFtValues comparables).insertionSort (· ≤ ·)

/-- `list.reduce((sum, v) => sum + v, 0) / list.length`; `none` when the
list is empty (where JavaScript would produce `NaN`). -/
def mean (l : List ℚ) : Option ℚ :=
  if l = [] then none else some (l.sum / (l.length : ℚ))

/-- `property.area || 0` (line 209). -/
def areaOrZero (property : Comparable) : ℚ := property.area.getD 0

/-- The median of lines 162-170: `sorted[0]` for a single element, the
midpoint of the two middle elements for an even length, the middle
element for an odd length. -/
def medianOfSorted (sortedPrices : List ℚ) : ℚ :=
  if sortedPrices.length = 1 then sortedPrices.getD 0 0
  else
    let middle := sortedPrices.length / 2
    if sortedPrices.length % 2 = 0 then
      (sortedPrices.getD (middle - 1) 0 + sortedPrices.getD middle 0) / 2
    else sortedPrices.getD middle 0

/-- `filteredPrices` of lines 175-182: floor-indexed quartiles,
`1.5·IQR` bounds, keep the values inside them. -/
def filteredPrices (sortedPrices : List ℚ) : List ℚ :=
  let lowerQuartile := sortedPrices.getD (sortedPrices.length / 4) 0
  let upperQuartile := sortedPrices.getD (3 * sortedPrices.length / 4) 0
  let iqr := upperQuartile - lowerQuartile
  let lowerBound := lowerQuartile - 3 / 2 * iqr
  let upperBound := upperQuartile + 3 / 2 * iqr
  sortedPrices.filter fun price =>
    decide (lowerBound ≤ price) && decide (price ≤ upperBound)

/-- Line 185: `avgPricePerSqFt`, the mean of the retained values. -/
def quartileAvg (sortedPrices : List ℚ) : Option ℚ :=
  mean (filteredPrices sortedPrices)

/-- Line 188: `basePrice = avgPricePerSqFt * 0.7 + medianPricePerSqFt * 0.3`
built from the two statistics of the quartile branch. -/
def basePriceOfSorted (sortedPrices : List ℚ) : Option ℚ :=
  (quartileAvg sortedPrices).map fun avgPricePerSqFt =>
    avgPricePerSqFt * (7 / 10) + medianOfSorted sortedPrices * (3 / 10)

/-- The fallback block of lines 89-128, taken when no valid comparables
remain: base 15 per square foot, ×1.2 water premium, ×0.7 / ×0.8 road and
utility reductions, ×0.9 above 10000 area, ×1.05 market trend — and no
floor clamp. -/
def fallbackEstimate (area : ℚ) (features : Features) : ValuationResult :=
  let basePrice : ℚ := 15
  let e0 := basePrice * area
  let e1 := if features.nearWater then e0 * (6 / 5) else e0
  let f1 : List Factor :=
    if features.nearWater then [⟨"Water Proximity", "+20%"⟩] else []
  let e2 := if !features.roadAccess then e1 * (7 / 10) else e1
  let f2 := f1 ++ (if !features.roadAccess then [⟨"No Road Access", "-30%"⟩] else [])
  let e3 := if !features.utilities then e2 * (4 / 5) else e2
  let f3 := f2 ++ (if !features.utilities then [⟨"No Utilities", "-20%"⟩] else [])
  let e4 := if (10000 : ℚ) < area then e3 * (9 / 10) else e3
  let f4 := f3 ++ (if (10000 : ℚ) < area then [⟨"Large Land Size", "-10%"⟩] else [])
  let f5 := f4 ++ [⟨"Market Trend (Estimate)", "+5%"⟩]
  let e5 := e4 * (21 / 20)
  { estimatedValue := e5, avgPricePerSqFt := basePrice, valuationFactors := f5 }

/-- The second fallback of lines 144-156, taken when the sanitized value
list is empty although some comparable passed the first filter: a flat
`15 · area` with a single `Default Valuation` factor and no clamp. -/
def defaultFallback (area : ℚ) : ValuationResult :=
  { estimatedValue := 15 * area
    avgPricePerSqFt := 15
    valuationFactors := [⟨"Default Valuation", "Baseline"⟩] }

/-- The `sortedPrices.length >= 4` branch (lines 173-233): IQR-filtered
mean blended 0.7/0.3 with the median, the three feature adjustments, the
mutually exclusive land-size adjustments against the mean comparable
area, the ×1.03 market trend, and the 1000 floor clamp. -/
def quartileBranch (area : ℚ) (features : Features)
    (validComps : List Comparable) (sortedPrices : List ℚ) :
    Option ValuationResult :=
  match quartileAvg sortedPrices, mean (validComps.map areaOrZero) with
  | some avgPricePerSqFt, some avgLandSize =>
    let basePrice := avgPricePerSqFt * (7 / 10) + medianOfSorted sortedPrices * (3 / 10)
    let e0 := basePrice * area
    let e1 := if features.nearWater then e0 * (23 / 20) else e0
    let f1 : List Factor :=
      if features.nearWater then [⟨"Water Proximity", "+15%"⟩] else []
    let e2 := if !features.roadAccess then e1 * (7 / 10) else e1
    let f2 := f1 ++ (if !features.roadAccess then [⟨"No Road Access", "-30%"⟩] else [])
    let e3 := if !features.utilities then e2 * (4 / 5) else e2
    let f3 := f2 ++ (if !features.utilities then [⟨"No Utilities", "-20%"⟩] else [])
    let e4 :=
      if avgLandSize * (3 / 2) < area then e3 * (19 / 20)
      else if area < avgLandSize * (1 / 2) then e3 * (21 / 20)
      else e3
    let f4 := f3 ++
      (if avgLandSize * (3 / 2) < area then [⟨"Large Land Size", "-5%"⟩]
       else if area < avgLandSize * (1 / 2) then [⟨"Small Land Size", "+5%"⟩]
       else [])
    let e5 := e4 * (103 / 100)
    let f5 := f4 ++ [⟨"Market Trend", "+3%"⟩]
    let e6 := if e5 < 1000 then 1000 else e5
    some { estimatedValue := e6, avgPricePerSqFt := avgPricePerSqFt,
           valuationFactors := f5 }
  | _, _ => none

/-- The `else` branch for 1-3 sanitized values (lines 234-278): plain
mean, the three feature adjustments, ×1.03 market trend, a `Limited Data`
factor, and the 1000 floor clamp. -/
def limitedBranch (area : ℚ) (features : Features)
    (sortedPrices : List ℚ) : Option ValuationResult :=
  match mean sortedPrices with
  | some avgPricePerSqFt =>
    let e0 := avgPricePerSqFt * area
    let e1 := if features.nearWater then e0 * (23 / 20) else e0
    let f1 : List Factor :=
      if features.nearWater then [⟨"Water Proximity", "+15%"⟩] else []
    let e2 := if !features.roadAccess then e1 * (7 / 10) else e1
    let f2 := f1 ++ (if !features.roadAccess then [⟨"No Road Access", "-30%"⟩] else [])
    let e3 := if !features.utilities then e2 * (4 / 5) else e2
    let f3 := f2 ++ (if !features.utilities then [⟨"No Utilities", "-20%"⟩] else [])
    let e4 := e3 * (103 / 100)
    let f4 := f3 ++ [⟨"Market Trend", "+3%"⟩]
    let f5 := f4 ++ [⟨"Limited Data", "Estimate based on limited comparable properties"⟩]
    let e5 := if e4 < 1000 then 1000 else e4
    some { estimatedValue := e5, avgPricePerSqFt := avgPricePerSqFt,
           valuationFactors := f5 }
  | none => none

/-- `calculateLandValue(area, comparables, features)` — the fix revision
of `services/valuationService.js`, lines 84-279.  The dispatch mirrors
the source: fallback when no valid comparable, second fallback when no
positive per-square-foot value remains, then the quartile branch for at
least 4 sanitized values and the limited-data branch otherwise. -/
def calculateLandValue (area : ℚ) (comparables : List Comparable)
    (features : Features) : Option ValuationResult :=
  if validComparables comparables = [] then some (fallbackEstimate area features)
  else if pricePerSqFtValues comparables = [] then some (defaultFallback area)
  else
    let sortedPrices := sortedPricesOf comparables
    if 4 ≤ sortedPrices.length then
      quartileBranch area features (validComparables comparables) sortedPrices
    else limitedBranch area features sortedPrices

/-!
## Comparable selection and request validation (`routes/valuation.js`)

The `router.post('/estimate')` handler runs four widening stages of store
queries plus a reverse-geocode lookup.  Each collaborator call is
modelled by the value it would produce: `Except.error` when the call
throws, `Except.ok` with the list the store can supply (the handler then
takes up to its `limit`).  Only stage 3 (geocode + governorate text
search) is wrapped in a local `try/catch` in the source; the other
stages' store calls run bare inside the handler's outer `try`.
-/

/-- The collaborator environment of one `/estimate` request. -/
structure SelectionStore where
  /-- Stage 1: `Property.find({location near, zoning}).limit(10)`. -/
  nearbySameZoning : Except String (List Comparable)
  /-- Stage 2: the doubled-radius query without the zoning filter. -/
  nearbyAnyZoning : Except String (List Comparable)
  /-- The reverse geocode: `some g` when a governorate/locality component
  is found, `none` when the response has none. -/
  governorateOf : Except String (Option String)
  /-- Stage 3: the governorate text-match query. -/
  byGovernorate : Except String (List Comparable)
  /-- Stage 4: the unfiltered `Property.find()`. -/
  anyProperties : Except String (List Comparable)
deriving Repr

/-- The synthesized placeholder of lines 161-174 of `routes/valuation.js`
(price 100000, area 1000, pricePerSqFt 100). -/
def fallbackProperty : Comparable :=
  { price := some 100000, area := some 1000, pricePerSqFt := some 100 }

/-- The staged comparable selection of `routes/valuation.js` lines
76-180: stage 1 takes up to 10; stage 2 runs when the count is below 5
and appends up to `10 - count`; stage 3 runs when the count is below 3,
with the geocode and the governorate query both inside a local
`try/catch` whose `catch` leaves the running list unchanged; stage 4
runs when the count is still below 3; an empty final list is replaced by
the single synthesized `fallbackProperty`.  Store errors outside stage 3
escape as `Except.error` (to the handler's outer `catch`). -/
def selectComparables (store : SelectionStore) : Except String (List Comparable) :=
  match store.nearbySameZoning with
  | .error e => .error e
  | .ok stage1 =>
    let comparables := stage1.take 10
    match
      (if comparables.length < 5 then
        match store.nearbyAnyZoning with
        | .error e => .error e
        | .ok more => .ok (comparables ++ more.take (10 - comparables.length))
      else .ok comparables : Except String (List Comparable)) with
    | .error e => .error e
    | .ok afterStage2 =>
      let afterStage3 :=
        if afterStage2.length < 3 then
          match store.governorateOf with
          | .error _ => afterStage2
          | .ok none => afterStage2
          | .ok (some _) =>
            match store.byGovernorate with
            | .error _ => afterStage2
            | .ok props => afterStage2 ++ props.take (10 - afterStage2.length)
        else afterStage2
      match
        (if afterStage3.length < 3 then
          match store.anyProperties with
          | .error e => .error e
          | .ok more => .ok (afterStage3 ++ more.take (10 - afterStage3.length))
        else .ok afterStage3 : Except String (List Comparable)) with
      | .error e => .error e
      | .ok afterStage4 =>
        .ok (if afterStage4 = [] then [fallbackProperty] else afterStage4)

/-- Outcome of the input validation prefix of the `/estimate` handler. -/
inductive ValidationOutcome where
  | rejected (status : Nat) (message : String)
  | accepted (lat lng area : ℚ)
deriving DecidableEq, Repr

/-- A request body field as the endpoint can receive it through
`express.json` / `express.urlencoded`: a JSON number, a string (carried
together with its `parseFloat` result, `none` standing for `NaN`), or
absent. -/
inductive FieldValue where
  | num (v : ℚ)
  | str (s : String) (parse : Option ℚ)
  | absent
deriving DecidableEq, Repr

/-- JavaScript truthiness of a request field: the number 0, the empty
string and `undefined` are falsy; every other number and every nonempty
string is truthy. -/
def truthyField (f : FieldValue) : Bool :=
  match f with
  | .num v => decide (v ≠ 0)
  | .str s _ => decide (s ≠ "")
  | .absent => false

/-- `parseFloat` on a request field: the identity on numbers, the
carried parse result on strings, `NaN` (modelled as `none`) on
`undefined`. -/
def parseFloatField (f : FieldValue) : Option ℚ :=
  match f with
  | .num v => some v
  | .str _ p => p
  | .absent => none

/-- Lines 26-57 of `routes/valuation.js`: `if (!lat || !lng)` → 400,
`if (!area)` → 400, then `parseFloat` with the
`isNaN(parsedLat) || isNaN(parsedLng)` rejection and the
`isNaN(parsedArea) || parsedArea <= 0` rejection.  The zoning and
features checks that follow are independent of these fields and are not
modelled. -/
def validateEstimateRequest (lat lng area : FieldValue) : ValidationOutcome :=
  if !truthyField lat || !truthyField lng then
    .rejected 400 "Latitude and longitude are required"
  else if !truthyField area then
    .rejected 400 "Land area is required"
  else
    let parsedLat := parseFloatField lat
    let parsedLng := parseFloatField lng
    let parsedArea := parseFloatField area
    if parsedLat.isNone || parsedLng.isNone then
      .rejected 400 "Invalid latitude or longitude values"
    else if parsedArea.isNone || decide (parsedArea.getD 0 ≤ 0) then
      .rejected 400 "Area must be a positive number"
    else .accepted (parsedLat.getD 0) (parsedLng.getD 0) (parsedArea.getD 0)

/-! ## Supporting lemmas -/

lemma sorted_getD_mono {l : List ℚ} (h : List.Sorted (· ≤ ·) l) {i j : ℕ}
    (hij : i ≤ j) (hj : j < l.length) : l.getD i 0 ≤ l.getD j 0 := by
  have hi : i < l.length := lt_of_le_of_lt hij hj
  rw [List.getD_eq_getElem l 0 hi, List.getD_eq_getElem l 0 hj]
  have := h.rel_get_of_le (a := ⟨i, hi⟩) (b := ⟨j, hj⟩) (by simpa using hij)
  simpa using this

lemma mem_pricePerSqFtValues_pos {comparables : List Comparable} {v : ℚ}
    (hv : v ∈ pricePerSqFtValues comparables) : 0 < v := by
  unfold pricePerSqFtValues at hv
  exact of_decide_eq_true (List.mem_filter.mp hv).2

lemma sortedPricesOf_perm (comparables : List Comparable) :
    (sortedPricesOf comparables).Perm (pricePerSqFtValues comparables) :=
  List.perm_insertionSort _ _

lemma sortedPricesOf_sorted (comparables : List Comparable) :
    List.Sorted (· ≤ ·) (sortedPricesOf comparables) :=
  List.sorted_insertionSort _ _

lemma mem_sortedPricesOf_pos {comparables : List Comparable} {v : ℚ}
    (hv : v ∈ sortedPricesOf comparables) : 0 < v :=
  mem_pricePerSqFtValues_pos ((sortedPricesOf_perm comparables).mem_iff.mp hv)

lemma mean_eq_some {l : List ℚ} (h : l ≠ []) :
    mean l = some (l.sum / (l.length : ℚ)) := by
  simp [mean, h]

lemma mean_pos {l : List ℚ} (h : l ≠ []) (hp : ∀ v ∈ l, 0 < v) :
    ∃ m, mean l = some m ∧ 0 < m := by
  refine ⟨l.sum / (l.length : ℚ), mean_eq_some h, ?_⟩
  have hs : 0 < l.sum := List.sum_pos l hp h
  have hl : 0 < (l.length : ℚ) := by
    exact_mod_cast List.length_pos.mpr h
  exact div_pos hs hl

lemma filteredPrices_ne_nil {l : List ℚ} (hs : List.Sorted (· ≤ ·) l)
    (hl : 4 ≤ l.length) : filteredPrices l ≠ [] := by
  have hi3 : 3 * l.length / 4 < l.length := by
    rw [Nat.div_lt_iff_lt_mul (by norm_num)]
    omega
  have hi13 : l.length / 4 ≤ 3 * l.length / 4 :=
    Nat.div_le_div_right (by omega)
  have hQ : l.getD (l.length / 4) 0 ≤ l.getD (3 * l.length / 4) 0 :=
    sorted_getD_mono hs hi13 hi3
  have hi1 : l.length / 4 < l.length := lt_of_le_of_lt hi13 hi3
  have hmem : l.getD (l.length / 4) 0 ∈ l := by
    rw [List.getD_eq_getElem l 0 hi1]
    exact List.getElem_mem hi1
  set Q1 := l.getD (l.length / 4) 0 with hQ1
  set Q3 := l.getD (3 * l.length / 4) 0 with hQ3
  have hpass : (decide (Q1 - 3 / 2 * (Q3 - Q1) ≤ Q1) &&
      decide (Q1 ≤ Q3 + 3 / 2 * (Q3 - Q1))) = true := by
    rw [Bool.and_eq_true, decide_eq_true_iff, decide_eq_true_iff]
    constructor <;> nlinarith
  have hfmem : Q1 ∈ l.filter fun price =>
      decide (Q1 - 3 / 2 * (Q3 - Q1) ≤ price) &&
        decide (price ≤ Q3 + 3 / 2 * (Q3 - Q1)) :=
    List.mem_filter.mpr ⟨hmem, hpass⟩
  exact List.ne_nil_of_mem hfmem

lemma mem_of_mem_filteredPrices {l : List ℚ} {v : ℚ}
    (hv : v ∈ filteredPrices l) : v ∈ l :=
  (List.mem_filter.mp hv).1

lemma quartileAvg_pos {l : List ℚ} (hs : List.Sorted (· ≤ ·) l)
    (hl : 4 ≤ l.length) (hp : ∀ v ∈ l, 0 < v) :
    ∃ a, quartileAvg l = some a ∧ 0 < a := by
  have hfne := filteredPrices_ne_nil hs hl
  have hfpos : ∀ v ∈ filteredPrices l, 0 < v :=
    fun v hv => hp v (mem_of_mem_filteredPrices hv)
  obtain ⟨m, hm, hmpos⟩ := mean_pos hfne hfpos
  exact ⟨m, hm, hmpos⟩

lemma medianOfSorted_pos {l : List ℚ} (h : l ≠ []) (hp : ∀ v ∈ l, 0 < v) :
    0 < medianOfSorted l := by
  have hn : 0 < l.length := List.length_pos.mpr h
  have hmid : l.length / 2 < l.length := Nat.div_lt_self hn (by norm_num)
  have hmid1 : l.length / 2 - 1 < l.length := lt_of_le_of_lt (by omega) hmid
  have hmem : ∀ {i : ℕ} (hi : i < l.length), 0 < l.getD i 0 := by
    intro i hi
    rw [List.getD_eq_getElem l 0 hi]
    exact hp _ (List.getElem_mem hi)
  unfold medianOfSorted
  split
  · exact hmem hn
  · dsimp only
    split
    · have h1 := hmem hmid1
      have h2 := hmem hmid
      linarith
    · exact hmem hmid

lemma validComparables_ne_nil {comparables : List Comparable}
    (hval : pricePerSqFtValues comparables ≠ []) :
    validComparables comparables ≠ [] := by
  intro h
  apply hval
  unfold pricePerSqFtValues
  rw [h]
  rfl

lemma sortedPricesOf_ne_nil {comparables : List Comparable}
    (hval : pricePerSqFtValues comparables ≠ []) :
    sortedPricesOf comparables ≠ [] := by
  intro h
  apply hval
  have := (sortedPricesOf_perm comparables).length_eq
  rw [h] at this
  exact List.length_eq_zero.mp this.symm

lemma exists_result (area : ℚ) (comparables : List Comparable)
    (features : Features) :
    ∃ r, calculateLandValue area comparables features = some r := by
  unfold calculateLandValue
  by_cases hvc : validComparables comparables = []
  · exact ⟨fallbackEstimate area features, by simp [hvc]⟩
  · by_cases hval : pricePerSqFtValues comparables = []
    · exact ⟨defaultFallback area, by simp [hvc, hval]⟩
    · by_cases h4 : 4 ≤ (sortedPricesOf comparables).length
      · obtain ⟨a, hqa, -⟩ := quartileAvg_pos (sortedPricesOf_sorted comparables) h4
          (fun v hv => mem_sortedPricesOf_pos hv)
        have hmapne : (validComparables comparables).map areaOrZero ≠ [] := by
          simpa using validComparables_ne_nil hval
        have hm := mean_eq_some hmapne
        have hsome : ∃ r, quartileBranch area features (validComparables comparables)
            (sortedPricesOf comparables) = some r := by
          rw [quartileBranch, hqa, hm]
          exact ⟨_, rfl⟩
        obtain ⟨r, hr⟩ := hsome
        refine ⟨r, ?_⟩
        rw [if_neg hvc, if_neg hval]
        show (if 4 ≤ (sortedPricesOf comparables).length then
            quartileBranch area features (validComparables comparables)
              (sortedPricesOf comparables)
          else limitedBranch area features (sortedPricesOf comparables)) = some r
        rw [if_pos h4]
        exact hr
      · have hsne := sortedPricesOf_ne_nil hval
        have hm := mean_eq_some hsne
        have hsome : ∃ r, limitedBranch area features (sortedPricesOf comparables) = some r := by
          rw [limitedBranch, hm]
          exact ⟨_, rfl⟩
        obtain ⟨r, hr⟩ := hsome
        refine ⟨r, ?_⟩
        rw [if_neg hvc, if_neg hval]
        show (if 4 ≤ (sortedPricesOf comparables).length then
            quartileBranch area features (validComparables comparables)
              (sortedPricesOf comparables)
          else limitedBranch area features (sortedPricesOf comparables)) = some r
        rw [if_neg h4]
        exact hr

/-! ## The claims -/

/-- **C1.** For every positive area, features record and comparables list
— including the empty list and lists without usable price data —
`calculateLandValue` returns a `ValuationResult` (`some`, never the
`none` that marks a thrown exception or a `NaN`), and when no usable
comparable survives sanitization the result is the fallback-baseline
one. -/
theorem calculateLandValue_total (area : ℚ) (comparables : List Comparable)
    (features : Features) (harea : 0 < area) :
    ∃ r, calculateLandValue area comparables features = some r ∧
      (pricePerSqFtValues comparables = [] →
        r = if validComparables comparables = [] then fallbackEstimate area features
            else defaultFallback area) := by
  obtain ⟨r, hr⟩ := exists_result area comparables features
  refine ⟨r, hr, fun hval => ?_⟩
  by_cases hvc : validComparables comparables = []
  · simp only [calculateLandValue, if_pos hvc] at hr
    rw [if_pos hvc]
    exact (Option.some.inj hr).symm
  · simp only [calculateLandValue, if_neg hvc, if_pos hval] at hr
    rw [if_neg hvc]
    exact (Option.some.inj hr).symm

/-- Witness for C1 at a concrete input: area 1000, one comparable lacking
any usable price data, so the fallback baseline is returned. -/
theorem calculateLandValue_total_witness :
    (0 : ℚ) < 1000 ∧
      ∃ r, calculateLandValue 1000 [⟨none, some 50, none⟩] ⟨false, true, true⟩ = some r ∧
        (pricePerSqFtValues [⟨none, some 50, none⟩] = [] →
          r = if validComparables [⟨none, some 50, none⟩] = [] then
                fallbackEstimate 1000 ⟨false, true, true⟩
              else defaultFallback 1000) :=
  ⟨by norm_num, calculateLandValue_total 1000 [⟨none, some 50, none⟩] ⟨false, true, true⟩ (by norm_num)⟩

/-- The sanitization rule in the words of claim C2: keep a comparable iff
a positive price-per-unit-area can be obtained from it, either directly
from the precomputed field or derived as `price/area` when both are
positive. -/
def specSanitizeKeep (p : Comparable) : Bool :=
  decide (0 < p.pricePerSqFt.getD 0) ||
    (decide (0 < p.price.getD 0) && decide (0 < p.area.getD 0))

/-- The comparables the claim-C2 rule would keep. -/
def specSanitize (comparables : List Comparable) : List Comparable :=
  comparables.filter specSanitizeKeep

/-- The comparables the code actually keeps: the line-86 filter, and the
value obtained by `effectivePricePerSqFt` must be positive. -/
def keptComparable (p : Comparable) : Bool :=
  validFilter p && decide (0 < effectivePricePerSqFt p)

lemma filter_map_filter {α β : Type} (g : α → Bool) (f : α → β)
    (q : β → Bool) (l : List α) :
    ((l.filter g).map f).filter q =
      (l.filter fun x => g x && q (f x)).map f := by
  induction l with
  | nil => rfl
  | cons x xs ih =>
    by_cases hg : g x
    · by_cases hq : q (f x) <;>
        simp [List.filter_cons, hg, hq, ih]
    · simp [List.filter_cons, hg, ih]

/-- **C2, counterexample.** A comparable whose precomputed
`pricePerSqFt` is the positive value 5 but whose `price` field is absent:
the claim's rule keeps it (a positive per-unit value is obtainable
directly), yet the code's sanitization yields no value from it, because
the line-86 filter also demands a truthy `price`. -/
theorem sanitize_spec_counterexample :
    specSanitize [⟨none, none, some 5⟩] = [⟨none, none, some 5⟩] ∧
      pricePerSqFtValues [⟨none, none, some 5⟩] = [] := by
  constructor <;> rfl

/-- **C2, amended.** The sanitization keeps exactly those comparables
with a truthy `price` and either a truthy precomputed `pricePerSqFt` or
a positive `area`, whose effective per-unit value — the precomputed
field when truthy, otherwise `price/area` — is positive; every other
observation is excluded before any statistic is computed. -/
theorem sanitize_amended (comparables : List Comparable) :
    pricePerSqFtValues comparables =
      (comparables.filter keptComparable).map effectivePricePerSqFt :=
  filter_map_filter validFilter effectivePricePerSqFt
    (fun value => decide (0 < value)) comparables

/-- The median in the words of claim C3: the midpoint average of the two
middle values of the sorted set when the count is even, the middle value
otherwise. -/
def specMedian (sorted : List ℚ) : ℚ :=
  if sorted.length % 2 = 0 then
    (sorted.getD (sorted.length / 2 - 1) 0 + sorted.getD (sorted.length / 2) 0) / 2
  else sorted.getD (sorted.length / 2) 0

/-- The base price per unit area in the words of claim C3:
`Q1 = sorted[floor(0.25·n)]`, `Q3 = sorted[floor(0.75·n)]`, drop the
values outside `[Q1 - 1.5·IQR, Q3 + 1.5·IQR]`, and blend
`0.7·avg + 0.3·median`. -/
def specBasePrice (sorted : List ℚ) : ℚ :=
  let q1 := sorted.getD ⌊(0.25 : ℚ) * sorted.length⌋₊ 0
  let q3 := sorted.getD ⌊(0.75 : ℚ) * sorted.length⌋₊ 0
  let iqr := q3 - q1
  let retained := sorted.filter fun v =>
    decide (q1 - 1.5 * iqr ≤ v) && decide (v ≤ q3 + 1.5 * iqr)
  0.7 * (retained.sum / (retained.length : ℚ)) + 0.3 * specMedian sorted

lemma floor_quarter_index (n : ℕ) : ⌊(0.25 : ℚ) * n⌋₊ = n / 4 := by
  have h : (0.25 : ℚ) * n = (n : ℚ) / ((4 : ℕ) : ℚ) := by push_cast; ring
  rw [h, Nat.floor_div_nat, Nat.floor_natCast]

lemma floor_threequarter_index (n : ℕ) : ⌊(0.75 : ℚ) * n⌋₊ = 3 * n / 4 := by
  have h : (0.75 : ℚ) * n = ((3 * n : ℕ) : ℚ) / ((4 : ℕ) : ℚ) := by push_cast; ring
  rw [h, Nat.floor_div_nat, Nat.floor_natCast]

lemma medianOfSorted_eq_spec (l : List ℚ) : medianOfSorted l = specMedian l := by
  unfold medianOfSorted specMedian
  by_cases h1 : l.length = 1
  · rw [if_pos h1, h1]
    norm_num
  · rw [if_neg h1]

/-- **C3.** For a sanitized list of at least 4 values, the quartile
branch's base price per unit area is exactly the claim's formula:
`0.7·avg + 0.3·median` with floor-indexed quartiles at `⌊0.25·n⌋` and
`⌊0.75·n⌋`, `1.5·IQR` outlier bounds applied to the mean only, and the
midpoint median of the full sorted set; moreover the `avgPricePerSqFt`
returned by `calculateLandValue` is the IQR-filtered mean. -/
theorem quartile_base_matches_spec (comparables : List Comparable)
    (h4 : 4 ≤ (pricePerSqFtValues comparables).length) :
    basePriceOfSorted (sortedPricesOf comparables) =
      some (specBasePrice (sortedPricesOf comparables)) ∧
    ∀ area features r, calculateLandValue area comparables features = some r →
      r.avgPricePerSqFt = (filteredPrices (sortedPricesOf comparables)).sum /
        ((filteredPrices (sortedPricesOf comparables)).length : ℚ) := by
  have hlen := (sortedPricesOf_perm comparables).length_eq
  have h4' : 4 ≤ (sortedPricesOf comparables).length := by rw [hlen]; exact h4
  have hs := sortedPricesOf_sorted comparables
  have hfne := filteredPrices_ne_nil hs h4'
  have hqa : quartileAvg (sortedPricesOf comparables) =
      some ((filteredPrices (sortedPricesOf comparables)).sum /
        ((filteredPrices (sortedPricesOf comparables)).length : ℚ)) :=
    mean_eq_some hfne
  constructor
  · unfold basePriceOfSorted
    rw [hqa, Option.map_some']
    congr 1
    simp only [specBasePrice, filteredPrices, floor_quarter_index,
      floor_threequarter_index, medianOfSorted_eq_spec,
      show (1.5 : ℚ) = 3 / 2 by norm_num, show (0.7 : ℚ) = 7 / 10 by norm_num,
      show (0.3 : ℚ) = 3 / 10 by norm_num]
    ring
  · intro area features r hr
    have hvalne : pricePerSqFtValues comparables ≠ [] := by
      intro h
      rw [h] at h4
      simp at h4
    have hvc := validComparables_ne_nil hvalne
    have hmapne : (validComparables comparables).map areaOrZero ≠ [] := by
      simpa using hvc
    simp only [calculateLandValue, if_neg hvc, if_neg hvalne, if_pos h4'] at hr
    rw [quartileBranch, hqa, mean_eq_some hmapne] at hr
    injection hr with h
    rw [← h]

/-- Four comparables with precomputed per-square-foot prices, used as a
concrete quartile-branch input. -/
def sampleComps4 : List Comparable :=
  [⟨some 10, some 1, some 10⟩, ⟨some 20, some 1, some 20⟩,
   ⟨some 30, some 1, some 30⟩, ⟨some 40, some 1, some 40⟩]

/-- Witness for C3 at the concrete four-comparable input. -/
theorem quartile_base_matches_spec_witness :
    4 ≤ (pricePerSqFtValues sampleComps4).length ∧
      (basePriceOfSorted (sortedPricesOf sampleComps4) =
          some (specBasePrice (sortedPricesOf sampleComps4)) ∧
        ∀ area features r, calculateLandValue area sampleComps4 features = some r →
          r.avgPricePerSqFt = (filteredPrices (sortedPricesOf sampleComps4)).sum /
            ((filteredPrices (sortedPricesOf sampleComps4)).length : ℚ)) :=
  ⟨by decide, quartile_base_matches_spec sampleComps4 (by decide)⟩

lemma clamp_congr {a b : ℚ} (h : a = b) :
    (if a < 1000 then (1000 : ℚ) else a) = (if b < 1000 then 1000 else b) := by
  rw [h]

/-- **C4.** For 1 to 3 sanitized values, the base price per unit area is
the plain mean of all sanitized values (no outlier removal), the
estimated value is that mean times the area under the feature and
market-trend multipliers only (no land-size step), and the factor list
records the `Limited Data` entry. -/
theorem limited_data_mean (area : ℚ) (comparables : List Comparable)
    (features : Features)
    (h1 : 1 ≤ (pricePerSqFtValues comparables).length)
    (h3 : (pricePerSqFtValues comparables).length ≤ 3) :
    ∃ r, calculateLandValue area comparables features = some r ∧
      r.avgPricePerSqFt = (pricePerSqFtValues comparables).sum /
        ((pricePerSqFtValues comparables).length : ℚ) ∧
      Factor.mk "Limited Data" "Estimate based on limited comparable properties"
        ∈ r.valuationFactors ∧
      r.estimatedValue =
        (let e := (pricePerSqFtValues comparables).sum /
            ((pricePerSqFtValues comparables).length : ℚ) * area *
            (if features.nearWater then 23 / 20 else 1) *
            (if !features.roadAccess then 7 / 10 else 1) *
            (if !features.utilities then 4 / 5 else 1) * (103 / 100)
         if e < 1000 then 1000 else e) := by
  have hvalne : pricePerSqFtValues comparables ≠ [] := by
    intro h
    rw [h] at h1
    simp at h1
  have hvc := validComparables_ne_nil hvalne
  have hlen := (sortedPricesOf_perm comparables).length_eq
  have h4 : ¬ 4 ≤ (sortedPricesOf comparables).length := by omega
  have hsne := sortedPricesOf_ne_nil hvalne
  have hm := mean_eq_some hsne
  have hsum := (sortedPricesOf_perm comparables).sum_eq
  obtain ⟨r, hr⟩ := exists_result area comparables features
  refine ⟨r, hr, ?_⟩
  simp only [calculateLandValue, if_neg hvc, if_neg hvalne, if_neg h4] at hr
  rw [limitedBranch, hm] at hr
  injection hr with h
  subst h
  refine ⟨?_, ?_, ?_⟩
  · show (sortedPricesOf comparables).sum / ((sortedPricesOf comparables).length : ℚ) = _
    rw [hsum, hlen]
  · simp [List.mem_append]
  · show (if _ < 1000 then (1000 : ℚ) else _) = _
    rw [hsum, hlen]
    apply clamp_congr
    split_ifs <;> ring

/-- Witness for C4: a single comparable at 12 per square foot and area
100 — the limited-data branch applies with mean 12. -/
theorem limited_data_mean_witness :
    1 ≤ (pricePerSqFtValues [⟨some 1200, none, some 12⟩]).length ∧
      (pricePerSqFtValues [⟨some 1200, none, some 12⟩]).length ≤ 3 ∧
      ∃ r, calculateLandValue 100 [⟨some 1200, none, some 12⟩] ⟨false, true, true⟩ = some r ∧
        r.avgPricePerSqFt = (pricePerSqFtValues [⟨some 1200, none, some 12⟩]).sum /
          ((pricePerSqFtValues [⟨some 1200, none, some 12⟩]).length : ℚ) ∧
        Factor.mk "Limited Data" "Estimate based on limited comparable properties"
          ∈ r.valuationFactors ∧
        r.estimatedValue =
          (let e := (pricePerSqFtValues [⟨some 1200, none, some 12⟩]).sum /
              ((pricePerSqFtValues [⟨some 1200, none, some 12⟩]).length : ℚ) * 100 *
              (if (⟨false, true, true⟩ : Features).nearWater then 23 / 20 else 1) *
              (if !(⟨false, true, true⟩ : Features).roadAccess then 7 / 10 else 1) *
              (if !(⟨false, true, true⟩ : Features).utilities then 4 / 5 else 1) * (103 / 100)
           if e < 1000 then 1000 else e) :=
  ⟨by decide, by decide,
    limited_data_mean 100 [⟨some 1200, none, some 12⟩] ⟨false, true, true⟩
      (by decide) (by decide)⟩

/-- The water multiplier of the two statistical branches, as a single
term (1 when the flag is off). -/
def wFactor (f : Features) : ℚ := if f.nearWater then 23 / 20 else 1

/-- The water multiplier of the first fallback block (×1.2 there). -/
def wFallback (f : Features) : ℚ := if f.nearWater then 6 / 5 else 1

/-- The road-access multiplier (applied when the flag is off). -/
def rdFactor (f : Features) : ℚ := if !f.roadAccess then 7 / 10 else 1

/-- The utilities multiplier (applied when the flag is off). -/
def uFactor (f : Features) : ℚ := if !f.utilities then 4 / 5 else 1

/-- The mutually exclusive land-size multiplier of the quartile branch. -/
def sizeFactor (m area : ℚ) : ℚ :=
  if m * (3 / 2) < area then 19 / 20
  else if area < m * (1 / 2) then 21 / 20 else 1

lemma wFactor_pos (f : Features) : 0 < wFactor f := by
  unfold wFactor
  split_ifs <;> norm_num

lemma wFallback_pos (f : Features) : 0 < wFallback f := by
  unfold wFallback
  split_ifs <;> norm_num

lemma rdFactor_pos (f : Features) : 0 < rdFactor f := by
  unfold rdFactor
  split_ifs <;> norm_num

lemma uFactor_pos (f : Features) : 0 < uFactor f := by
  unfold uFactor
  split_ifs <;> norm_num

lemma sizeFactor_pos (m area : ℚ) : 0 < sizeFactor m area := by
  unfold sizeFactor
  split_ifs <;> norm_num

lemma quartileBranch_eq (area : ℚ) (features : Features)
    (vc : List Comparable) (s : List ℚ) {a m : ℚ}
    (hqa : quartileAvg s = some a)
    (hm : mean (vc.map areaOrZero) = some m) :
    quartileBranch area features vc s = some
      { estimatedValue :=
          (let e := (a * (7 / 10) + medianOfSorted s * (3 / 10)) * area *
              wFactor features * rdFactor features * uFactor features *
              sizeFactor m area * (103 / 100)
           if e < 1000 then 1000 else e)
        avgPricePerSqFt := a
        valuationFactors :=
          ((((if features.nearWater then [Factor.mk "Water Proximity" "+15%"] else []) ++
            (if !features.roadAccess then [Factor.mk "No Road Access" "-30%"] else [])) ++
            (if !features.utilities then [Factor.mk "No Utilities" "-20%"] else [])) ++
            (if m * (3 / 2) < area then [Factor.mk "Large Land Size" "-5%"]
             else if area < m * (1 / 2) then [Factor.mk "Small Land Size" "+5%"] else [])) ++
            [Factor.mk "Market Trend" "+3%"] } := by
  rw [quartileBranch, hqa, hm]
  simp only [Option.some.injEq, ValuationResult.mk.injEq]
  refine ⟨?_, trivial, trivial⟩
  apply clamp_congr
  unfold wFactor rdFactor uFactor sizeFactor
  split_ifs <;> ring

lemma limitedBranch_eq (area : ℚ) (features : Features)
    (s : List ℚ) {a : ℚ} (hm : mean s = some a) :
    limitedBranch area features s = some
      { estimatedValue :=
          (let e := a * area * wFactor features * rdFactor features *
              uFactor features * (103 / 100)
           if e < 1000 then 1000 else e)
        avgPricePerSqFt := a
        valuationFactors :=
          ((((if features.nearWater then [Factor.mk "Water Proximity" "+15%"] else []) ++
            (if !features.roadAccess then [Factor.mk "No Road Access" "-30%"] else [])) ++
            (if !features.utilities then [Factor.mk "No Utilities" "-20%"] else [])) ++
            [Factor.mk "Market Trend" "+3%"]) ++
            [Factor.mk "Limited Data" "Estimate based on limited comparable properties"] } := by
  rw [limitedBranch, hm]
  simp only [Option.some.injEq, ValuationResult.mk.injEq]
  refine ⟨?_, trivial, trivial⟩
  apply clamp_congr
  unfold wFactor rdFactor uFactor
  split_ifs <;> ring

lemma fallbackEstimate_value (area : ℚ) (features : Features) :
    (fallbackEstimate area features).estimatedValue =
      15 * area * wFallback features * rdFactor features *
        uFactor features * (if (10000 : ℚ) < area then 9 / 10 else 1) * (21 / 20) := by
  simp only [fallbackEstimate]
  unfold wFallback rdFactor uFactor
  split_ifs <;> ring

lemma defaultFallback_value (area : ℚ) :
    (defaultFallback area).estimatedValue = 15 * area := rfl

/-- **C5, counterexample.** The fallback-baseline path taken for empty
comparables applies no floor clamp: with area 1 and neutral features the
estimator returns 15 · 1 · 1.05 = 15.75, far below the 1000 threshold the
claim says applies on every path. -/
theorem floor_clamp_counterexample :
    calculateLandValue 1 [] ⟨false, true, true⟩ =
      some { estimatedValue := 63 / 4, avgPricePerSqFt := 15,
             valuationFactors := [⟨"Market Trend (Estimate)", "+5%"⟩] } ∧
      (63 / 4 : ℚ) < 1000 := by
  constructor
  · show some (fallbackEstimate 1 ⟨false, true, true⟩) = _
    simp only [fallbackEstimate, Option.some.injEq, ValuationResult.mk.injEq]
    norm_num
  · norm_num

/-- **C5, amended.** The 1000 floor clamp applies on the quartile and
limited-data paths — there the returned `estimatedValue` is exactly 1000
whenever the adjusted estimate falls below 1000, and the clamp itself
appends no factor entry: the factor lists are given below in full, are
independent of the clamp, and contain no clamp-related entry — but the
clamp does not apply on the two fallback-baseline paths, which return
their running estimate unclamped. -/
theorem floor_clamp_amended :
    (∀ area comparables features, 4 ≤ (pricePerSqFtValues comparables).length →
      ∃ r base m, calculateLandValue area comparables features = some r ∧
        basePriceOfSorted (sortedPricesOf comparables) = some base ∧
        mean ((validComparables comparables).map areaOrZero) = some m ∧
        r.estimatedValue =
          (let e := base * area * (if features.nearWater then 23 / 20 else 1) *
              (if !features.roadAccess then 7 / 10 else 1) *
              (if !features.utilities then 4 / 5 else 1) *
              (if m * (3 / 2) < area then 19 / 20
               else if area < m * (1 / 2) then 21 / 20 else 1) * (103 / 100)
           if e < 1000 then 1000 else e) ∧
        r.valuationFactors =
          ((((if features.nearWater then [Factor.mk "Water Proximity" "+15%"] else []) ++
            (if !features.roadAccess then [Factor.mk "No Road Access" "-30%"] else [])) ++
            (if !features.utilities then [Factor.mk "No Utilities" "-20%"] else [])) ++
            (if m * (3 / 2) < area then [Factor.mk "Large Land Size" "-5%"]
             else if area < m * (1 / 2) then [Factor.mk "Small Land Size" "+5%"] else [])) ++
            [Factor.mk "Market Trend" "+3%"]) ∧
    (∀ area comparables features, 1 ≤ (pricePerSqFtValues comparables).length →
      (pricePerSqFtValues comparables).length ≤ 3 →
      ∃ r, calculateLandValue area comparables features = some r ∧
        r.estimatedValue =
          (let e := (pricePerSqFtValues comparables).sum /
              ((pricePerSqFtValues comparables).length : ℚ) * area *
              (if features.nearWater then 23 / 20 else 1) *
              (if !features.roadAccess then 7 / 10 else 1) *
              (if !features.utilities then 4 / 5 else 1) * (103 / 100)
           if e < 1000 then 1000 else e) ∧
        r.valuationFactors =
          ((((if features.nearWater then [Factor.mk "Water Proximity" "+15%"] else []) ++
            (if !features.roadAccess then [Factor.mk "No Road Access" "-30%"] else [])) ++
            (if !features.utilities then [Factor.mk "No Utilities" "-20%"] else [])) ++
            [Factor.mk "Market Trend" "+3%"]) ++
            [Factor.mk "Limited Data" "Estimate based on limited comparable properties"]) ∧
    (∀ area features, (fallbackEstimate area features).estimatedValue =
      15 * area * (if features.nearWater then 6 / 5 else 1) *
        (if !features.roadAccess then 7 / 10 else 1) *
        (if !features.utilities then 4 / 5 else 1) *
        (if (10000 : ℚ) < area then 9 / 10 else 1) * (21 / 20)) ∧
    (∀ area, (defaultFallback area).estimatedValue = 15 * area) := by
  refine ⟨?_, ?_, fallbackEstimate_value, defaultFallback_value⟩
  · intro area comparables features h4
    have hvalne : pricePerSqFtValues comparables ≠ [] := by
      intro h
      rw [h] at h4
      simp at h4
    have hvc := validComparables_ne_nil hvalne
    have hlen := (sortedPricesOf_perm comparables).length_eq
    have h4' : 4 ≤ (sortedPricesOf comparables).length := by omega
    have hfne := filteredPrices_ne_nil (sortedPricesOf_sorted comparables) h4'
    have hqa : quartileAvg (sortedPricesOf comparables) =
        some ((filteredPrices (sortedPricesOf comparables)).sum /
          ((filteredPrices (sortedPricesOf comparables)).length : ℚ)) :=
      mean_eq_some hfne
    have hmapne : (validComparables comparables).map areaOrZero ≠ [] := by
      simpa using hvc
    have hm := mean_eq_some hmapne
    have hb : basePriceOfSorted (sortedPricesOf comparables) = some
        ((filteredPrices (sortedPricesOf comparables)).sum /
            ((filteredPrices (sortedPricesOf comparables)).length : ℚ) * (7 / 10) +
          medianOfSorted (sortedPricesOf comparables) * (3 / 10)) := by
      rw [basePriceOfSorted, hqa, Option.map_some']
    have hQ := quartileBranch_eq area features (validComparables comparables)
      (sortedPricesOf comparables) hqa hm
    exact ⟨_, _, _,
      by simp only [calculateLandValue, if_neg hvc, if_neg hvalne, if_pos h4']; exact hQ,
      hb, hm, rfl, rfl⟩
  · intro area comparables features h1 h3
    have hvalne : pricePerSqFtValues comparables ≠ [] := by
      intro h
      rw [h] at h1
      simp at h1
    have hvc := validComparables_ne_nil hvalne
    have hlen := (sortedPricesOf_perm comparables).length_eq
    have h4 : ¬ 4 ≤ (sortedPricesOf comparables).length := by omega
    have hsne := sortedPricesOf_ne_nil hvalne
    have hm := mean_eq_some hsne
    have hL := limitedBranch_eq area features (sortedPricesOf comparables) hm
    refine ⟨_,
      by simp only [calculateLandValue, if_neg hvc, if_neg hvalne, if_neg h4]; exact hL, ?_, rfl⟩
    show (let e := (sortedPricesOf comparables).sum /
        ((sortedPricesOf comparables).length : ℚ) * area *
        (if features.nearWater then 23 / 20 else 1) *
        (if !features.roadAccess then 7 / 10 else 1) *
        (if !features.utilities then 4 / 5 else 1) * (103 / 100)
      if e < 1000 then 1000 else e) = _
    rw [(sortedPricesOf_perm comparables).sum_eq, hlen]

/-- Witness for C5 (amended) on the quartile path at a concrete input. -/
theorem floor_clamp_amended_witness :
    4 ≤ (pricePerSqFtValues sampleComps4).length ∧
      ∃ r base m, calculateLandValue 2 sampleComps4 ⟨false, true, true⟩ = some r ∧
        basePriceOfSorted (sortedPricesOf sampleComps4) = some base ∧
        mean ((validComparables sampleComps4).map areaOrZero) = some m ∧
        r.estimatedValue =
          (let e := base * 2 * (if (⟨false, true, true⟩ : Features).nearWater then 23 / 20 else 1) *
              (if !(⟨false, true, true⟩ : Features).roadAccess then 7 / 10 else 1) *
              (if !(⟨false, true, true⟩ : Features).utilities then 4 / 5 else 1) *
              (if m * (3 / 2) < 2 then 19 / 20
               else if 2 < m * (1 / 2) then 21 / 20 else 1) * (103 / 100)
           if e < 1000 then 1000 else e) ∧
        r.valuationFactors =
          ((((if (⟨false, true, true⟩ : Features).nearWater then
              [Factor.mk "Water Proximity" "+15%"] else []) ++
            (if !(⟨false, true, true⟩ : Features).roadAccess then
              [Factor.mk "No Road Access" "-30%"] else [])) ++
            (if !(⟨false, true, true⟩ : Features).utilities then
              [Factor.mk "No Utilities" "-20%"] else [])) ++
            (if m * (3 / 2) < 2 then [Factor.mk "Large Land Size" "-5%"]
             else if 2 < m * (1 / 2) then [Factor.mk "Small Land Size" "+5%"] else [])) ++
            [Factor.mk "Market Trend" "+3%"] :=
  ⟨by decide, floor_clamp_amended.1 2 sampleComps4 ⟨false, true, true⟩ (by decide)⟩

lemma clamp_le_clamp {a b : ℚ} (h : a ≤ b) :
    (if a < 1000 then (1000 : ℚ) else a) ≤ (if b < 1000 then 1000 else b) := by
  split_ifs <;> linarith

lemma clamp_lt_clamp {a b : ℚ} (h : a < b)
    (hb : 1000 < (if b < 1000 then (1000 : ℚ) else b)) :
    (if a < 1000 then (1000 : ℚ) else a) < (if b < 1000 then 1000 else b) := by
  split_ifs at hb ⊢ <;> linarith

lemma weighted_le {B area S c : ℚ} (hB : 0 < B) (harea : 0 < area)
    (hS : 0 < S) (hc : 0 < c) {wf rf uf wt rt ut : ℚ}
    (h : wf * rf * uf ≤ wt * rt * ut) :
    B * area * wf * rf * uf * S * c ≤ B * area * wt * rt * ut * S * c := by
  have hD : 0 < B * area * S * c := by positivity
  calc B * area * wf * rf * uf * S * c
      = B * area * S * c * (wf * rf * uf) := by ring
    _ ≤ B * area * S * c * (wt * rt * ut) := mul_le_mul_of_nonneg_left h hD.le
    _ = B * area * wt * rt * ut * S * c := by ring

lemma weighted_lt {B area S c : ℚ} (hB : 0 < B) (harea : 0 < area)
    (hS : 0 < S) (hc : 0 < c) {wf rf uf wt rt ut : ℚ}
    (h : wf * rf * uf < wt * rt * ut) :
    B * area * wf * rf * uf * S * c < B * area * wt * rt * ut * S * c := by
  have hD : 0 < B * area * S * c := by positivity
  calc B * area * wf * rf * uf * S * c
      = B * area * S * c * (wf * rf * uf) := by ring
    _ < B * area * S * c * (wt * rt * ut) := (mul_lt_mul_left hD).mpr h
    _ = B * area * wt * rt * ut * S * c := by ring

lemma weighted_le_noS {B area c : ℚ} (hB : 0 < B) (harea : 0 < area)
    (hc : 0 < c) {wf rf uf wt rt ut : ℚ}
    (h : wf * rf * uf ≤ wt * rt * ut) :
    B * area * wf * rf * uf * c ≤ B * area * wt * rt * ut * c := by
  have hD : 0 < B * area * c := by positivity
  calc B * area * wf * rf * uf * c
      = B * area * c * (wf * rf * uf) := by ring
    _ ≤ B * area * c * (wt * rt * ut) := mul_le_mul_of_nonneg_left h hD.le
    _ = B * area * wt * rt * ut * c := by ring

lemma weighted_lt_noS {B area c : ℚ} (hB : 0 < B) (harea : 0 < area)
    (hc : 0 < c) {wf rf uf wt rt ut : ℚ}
    (h : wf * rf * uf < wt * rt * ut) :
    B * area * wf * rf * uf * c < B * area * wt * rt * ut * c := by
  have hD : 0 < B * area * c := by positivity
  calc B * area * wf * rf * uf * c
      = B * area * c * (wf * rf * uf) := by ring
    _ < B * area * c * (wt * rt * ut) := (mul_lt_mul_left hD).mpr h
    _ = B * area * wt * rt * ut * c := by ring

lemma pricePerSqFtValues_nil_of_validComparables_nil {comparables : List Comparable}
    (h : validComparables comparables = []) : pricePerSqFtValues comparables = [] := by
  unfold pricePerSqFtValues
  rw [h]
  rfl

/-- The monotonicity core: with fixed area and comparables, two feature
records whose unclamped feature-multiplier products compare (on both the
statistical and the fallback adjustment scales) give comparing estimates;
strictness holds on the statistical paths above the floor clamp. -/
lemma monotone_master (area : ℚ) (comparables : List Comparable)
    (ft ff : Features) (harea : 0 < area)
    (hstat : wFactor ff * rdFactor ff * uFactor ff ≤
      wFactor ft * rdFactor ft * uFactor ft)
    (hfall : wFallback ff * rdFactor ff * uFactor ff ≤
      wFallback ft * rdFactor ft * uFactor ft)
    {rt rf : ValuationResult}
    (hrt : calculateLandValue area comparables ft = some rt)
    (hrf : calculateLandValue area comparables ff = some rf) :
    rf.estimatedValue ≤ rt.estimatedValue ∧
      (pricePerSqFtValues comparables ≠ [] →
        wFactor ff * rdFactor ff * uFactor ff <
          wFactor ft * rdFactor ft * uFactor ft →
        1000 < rt.estimatedValue →
        rf.estimatedValue < rt.estimatedValue) := by
  by_cases hvc : validComparables comparables = []
  · have hval := pricePerSqFtValues_nil_of_validComparables_nil hvc
    simp only [calculateLandValue, if_pos hvc, Option.some.injEq] at hrt hrf
    subst hrt
    subst hrf
    refine ⟨?_, fun hne _ _ => absurd hval hne⟩
    rw [fallbackEstimate_value, fallbackEstimate_value]
    have hSz : 0 < (if (10000 : ℚ) < area then (9 : ℚ) / 10 else 1) := by
      split_ifs <;> norm_num
    exact weighted_le (by norm_num) harea hSz (by norm_num) hfall
  · by_cases hval : pricePerSqFtValues comparables = []
    · simp only [calculateLandValue, if_neg hvc, if_pos hval, Option.some.injEq] at hrt hrf
      subst hrt
      subst hrf
      exact ⟨le_refl _, fun hne _ _ => absurd hval hne⟩
    · have hsne := sortedPricesOf_ne_nil hval
      have hspos : ∀ v ∈ sortedPricesOf comparables, 0 < v :=
        fun v hv => mem_sortedPricesOf_pos hv
      by_cases h4 : 4 ≤ (sortedPricesOf comparables).length
      · obtain ⟨a, hqa, hapos⟩ :=
          quartileAvg_pos (sortedPricesOf_sorted comparables) h4 hspos
        have hmed := medianOfSorted_pos hsne hspos
        have hmapne : (validComparables comparables).map areaOrZero ≠ [] := by
          simpa using hvc
        have hmean := mean_eq_some hmapne
        have hB : 0 < a * (7 / 10) + medianOfSorted (sortedPricesOf comparables) * (3 / 10) :=
          add_pos (mul_pos hapos (by norm_num)) (mul_pos hmed (by norm_num))
        simp only [calculateLandValue, if_neg hvc, if_neg hval, if_pos h4] at hrt hrf
        rw [quartileBranch_eq area ft (validComparables comparables)
          (sortedPricesOf comparables) hqa hmean, Option.some.injEq] at hrt
        rw [quartileBranch_eq area ff (validComparables comparables)
          (sortedPricesOf comparables) hqa hmean, Option.some.injEq] at hrf
        subst hrt
        subst hrf
        constructor
        · apply clamp_le_clamp
          exact weighted_le hB harea (sizeFactor_pos _ _) (by norm_num) hstat
        · intro _ hlt h1000
          apply clamp_lt_clamp
          · exact weighted_lt hB harea (sizeFactor_pos _ _) (by norm_num) hlt
          · exact h1000
      · obtain ⟨a, hmean, hapos⟩ := mean_pos hsne hspos
        simp only [calculateLandValue, if_neg hvc, if_neg hval, if_neg h4] at hrt hrf
        rw [limitedBranch_eq area ft (sortedPricesOf comparables) hmean,
          Option.some.injEq] at hrt
        rw [limitedBranch_eq area ff (sortedPricesOf comparables) hmean,
          Option.some.injEq] at hrf
        subst hrt
        subst hrf
        constructor
        · apply clamp_le_clamp
          exact weighted_le_noS hapos harea (by norm_num) hstat
        · intro _ hlt h1000
          apply clamp_lt_clamp
          · exact weighted_lt_noS hapos harea (by norm_num) hlt
          · exact h1000

/-- **C6, counterexample.** With area 1 and one comparable at 2 per
square foot, both the `nearWater = true` and the `nearWater = false`
calls are floor-clamped to exactly 1000, so enabling `nearWater` does
not strictly increase the estimate. -/
theorem monotone_counterexample :
    calculateLandValue 1 [⟨some 2, some 1, some 2⟩] ⟨true, true, true⟩ =
      some ⟨1000, 2, [⟨"Water Proximity", "+15%"⟩, ⟨"Market Trend", "+3%"⟩,
        ⟨"Limited Data", "Estimate based on limited comparable properties"⟩]⟩ ∧
      calculateLandValue 1 [⟨some 2, some 1, some 2⟩] ⟨false, true, true⟩ =
        some ⟨1000, 2, [⟨"Market Trend", "+3%"⟩,
          ⟨"Limited Data", "Estimate based on limited comparable properties"⟩]⟩ ∧
      ¬ ((1000 : ℚ) < 1000) := by
  refine ⟨?_, ?_, by norm_num⟩ <;>
    norm_num [calculateLandValue, validComparables, validFilter, truthy,
      pricePerSqFtValues, effectivePricePerSqFt, sortedPricesOf, limitedBranch,
      mean, List.insertionSort, List.orderedInsert]

/-- **C6, amended.** For fixed area and comparables, enabling `nearWater`
never decreases `estimatedValue`, and strictly increases it whenever some
sanitized value survives and the larger result lies above the 1000 floor
clamp; symmetrically, disabling `roadAccess` or `utilities` never
increases the estimate and strictly decreases it under the same proviso.
(Strictness fails when both results are pinned at the floor, and on the
`Default Valuation` fallback, which ignores the features entirely.) -/
theorem monotone_adjustments_amended (area : ℚ) (comparables : List Comparable)
    (features : Features) (harea : 0 < area) :
    (∀ rt rf,
      calculateLandValue area comparables ⟨true, features.roadAccess, features.utilities⟩ = some rt →
      calculateLandValue area comparables ⟨false, features.roadAccess, features.utilities⟩ = some rf →
      rf.estimatedValue ≤ rt.estimatedValue ∧
        (pricePerSqFtValues comparables ≠ [] → 1000 < rt.estimatedValue →
          rf.estimatedValue < rt.estimatedValue)) ∧
    (∀ rt rf,
      calculateLandValue area comparables ⟨features.nearWater, true, features.utilities⟩ = some rt →
      calculateLandValue area comparables ⟨features.nearWater, false, features.utilities⟩ = some rf →
      rf.estimatedValue ≤ rt.estimatedValue ∧
        (pricePerSqFtValues comparables ≠ [] → 1000 < rt.estimatedValue →
          rf.estimatedValue < rt.estimatedValue)) ∧
    (∀ rt rf,
      calculateLandValue area comparables ⟨features.nearWater, features.roadAccess, true⟩ = some rt →
      calculateLandValue area comparables ⟨features.nearWater, features.roadAccess, false⟩ = some rf →
      rf.estimatedValue ≤ rt.estimatedValue ∧
        (pricePerSqFtValues comparables ≠ [] → 1000 < rt.estimatedValue →
          rf.estimatedValue < rt.estimatedValue)) := by
  obtain ⟨w, ro, u⟩ := features
  refine ⟨fun rt rf hrt hrf => ?_, fun rt rf hrt hrf => ?_, fun rt rf hrt hrf => ?_⟩
  · obtain ⟨h1, h2⟩ := monotone_master area comparables ⟨true, ro, u⟩ ⟨false, ro, u⟩ harea
      (by cases ro <;> cases u <;> norm_num [wFactor, rdFactor, uFactor])
      (by cases ro <;> cases u <;> norm_num [wFallback, rdFactor, uFactor])
      hrt hrf
    exact ⟨h1, fun hne h1000 => h2 hne
      (by cases ro <;> cases u <;> norm_num [wFactor, rdFactor, uFactor]) h1000⟩
  · obtain ⟨h1, h2⟩ := monotone_master area comparables ⟨w, true, u⟩ ⟨w, false, u⟩ harea
      (by cases w <;> cases u <;> norm_num [wFactor, rdFactor, uFactor])
      (by cases w <;> cases u <;> norm_num [wFallback, rdFactor, uFactor])
      hrt hrf
    exact ⟨h1, fun hne h1000 => h2 hne
      (by cases w <;> cases u <;> norm_num [wFactor, rdFactor, uFactor]) h1000⟩
  · obtain ⟨h1, h2⟩ := monotone_master area comparables ⟨w, ro, true⟩ ⟨w, ro, false⟩ harea
      (by cases w <;> cases ro <;> norm_num [wFactor, rdFactor, uFactor])
      (by cases w <;> cases ro <;> norm_num [wFallback, rdFactor, uFactor])
      hrt hrf
    exact ⟨h1, fun hne h1000 => h2 hne
      (by cases w <;> cases ro <;> norm_num [wFactor, rdFactor, uFactor]) h1000⟩

/-- Witness for C6 (amended) at a concrete input: one comparable at 2000
per square foot, area 1, so both sides are above the clamp. -/
theorem monotone_adjustments_amended_witness :
    (0 : ℚ) < 1 ∧
      ((∀ rt rf,
        calculateLandValue 1 [⟨some 2000, some 1, some 2000⟩] ⟨true, true, true⟩ = some rt →
        calculateLandValue 1 [⟨some 2000, some 1, some 2000⟩] ⟨false, true, true⟩ = some rf →
        rf.estimatedValue ≤ rt.estimatedValue ∧
          (pricePerSqFtValues [⟨some 2000, some 1, some 2000⟩] ≠ [] →
            1000 < rt.estimatedValue → rf.estimatedValue < rt.estimatedValue)) ∧
      (∀ rt rf,
        calculateLandValue 1 [⟨some 2000, some 1, some 2000⟩] ⟨false, true, true⟩ = some rt →
        calculateLandValue 1 [⟨some 2000, some 1, some 2000⟩] ⟨false, false, true⟩ = some rf →
        rf.estimatedValue ≤ rt.estimatedValue ∧
          (pricePerSqFtValues [⟨some 2000, some 1, some 2000⟩] ≠ [] →
            1000 < rt.estimatedValue → rf.estimatedValue < rt.estimatedValue)) ∧
      (∀ rt rf,
        calculateLandValue 1 [⟨some 2000, some 1, some 2000⟩] ⟨false, true, true⟩ = some rt →
        calculateLandValue 1 [⟨some 2000, some 1, some 2000⟩] ⟨false, true, false⟩ = some rf →
        rf.estimatedValue ≤ rt.estimatedValue ∧
          (pricePerSqFtValues [⟨some 2000, some 1, some 2000⟩] ≠ [] →
            1000 < rt.estimatedValue → rf.estimatedValue < rt.estimatedValue))) :=
  ⟨by norm_num,
    monotone_adjustments_amended 1 [⟨some 2000, some 1, some 2000⟩]
      ⟨false, true, true⟩ (by norm_num)⟩

/-- The `sampleComps4` quartet (unit areas, positive per-unit values)
plus a fifth comparable that survives the line-86 filter (truthy price
and truthy precomputed `pricePerSqFt`) but whose precomputed value is
negative, so it contributes no sanitized value — yet its area 100 enters
the code's `avgLandSize`. -/
def mixedComps5 : List Comparable :=
  sampleComps4 ++ [⟨some 5, some 100, some (-3)⟩]

/-- **C7, counterexample.** The claim's size triggers compare against
the mean area of the *sanitized* set (the comparables whose positive
per-unit value survives, `filter keptComparable`): here that mean is 1,
so at subject area 2 the claim's rule fires the large-land −5%
adjustment (2 > 1.5·1).  The code instead averages the areas of all
line-86 `validComparables` — mean 104/5 — and fires the small-land +5%
adjustment (2 < 0.5·104/5), with no −5% entry. -/
theorem size_trigger_counterexample :
    mean ((mixedComps5.filter keptComparable).map areaOrZero) = some 1 ∧
      (1 : ℚ) * (3 / 2) < 2 ∧
      calculateLandValue 2 mixedComps5 ⟨false, true, true⟩ =
        some ⟨1000, 25, [⟨"Small Land Size", "+5%"⟩, ⟨"Market Trend", "+3%"⟩]⟩ ∧
      Factor.mk "Large Land Size" "-5%" ∉
        ([⟨"Small Land Size", "+5%"⟩, ⟨"Market Trend", "+3%"⟩] : List Factor) := by
  have hkept : mixedComps5.filter keptComparable = sampleComps4 := by
    norm_num [mixedComps5, sampleComps4, keptComparable, validFilter, truthy,
      effectivePricePerSqFt, List.filter]
  have hvals : pricePerSqFtValues mixedComps5 = [10, 20, 30, 40] := by
    norm_num [pricePerSqFtValues, validComparables, validFilter, truthy,
      effectivePricePerSqFt, mixedComps5, sampleComps4]
  have hvc : validComparables mixedComps5 = mixedComps5 := by
    norm_num [validComparables, validFilter, truthy, mixedComps5, sampleComps4]
  have hsorted : sortedPricesOf mixedComps5 = [10, 20, 30, 40] := by
    rw [sortedPricesOf, hvals]
    norm_num [List.insertionSort, List.orderedInsert]
  have hfp : filteredPrices [10, 20, 30, 40] = [10, 20, 30, 40] := by
    norm_num [filteredPrices, List.getD]
  have hqa : quartileAvg (sortedPricesOf mixedComps5) = some 25 := by
    rw [hsorted, quartileAvg, hfp, mean_eq_some (by simp)]
    norm_num
  have hmap : mixedComps5.map areaOrZero = [1, 1, 1, 1, 100] := by
    norm_num [areaOrZero, mixedComps5, sampleComps4]
  have hmean : mean ((validComparables mixedComps5).map areaOrZero) = some (104 / 5) := by
    rw [hvc, hmap, mean_eq_some (by simp)]
    norm_num
  have hvcne : ¬ validComparables mixedComps5 = [] := by
    rw [hvc]
    simp [mixedComps5]
  have hvalne : ¬ pricePerSqFtValues mixedComps5 = [] := by
    rw [hvals]
    simp
  have h4 : 4 ≤ (sortedPricesOf mixedComps5).length := by
    rw [hsorted]
    norm_num
  refine ⟨?_, by norm_num, ?_, by decide⟩
  · rw [hkept]
    have hmap4 : sampleComps4.map areaOrZero = [1, 1, 1, 1] := by
      norm_num [areaOrZero, sampleComps4]
    rw [hmap4, mean_eq_some (by simp)]
    norm_num
  · simp only [calculateLandValue, if_neg hvcne, if_neg hvalne, if_pos h4]
    rw [quartileBranch_eq 2 ⟨false, true, true⟩ (validComparables mixedComps5)
      (sortedPricesOf mixedComps5) hqa hmean]
    rw [hsorted]
    norm_num [wFactor, rdFactor, uFactor, sizeFactor, medianOfSorted, List.getD]

/-- **C7, amended.** The ×0.95 large-land and ×1.05 small-land
adjustments are mutually exclusive (never both in one factor list);
neither appears at all when fewer than 4 sanitized values were used; and
on the quartile branch the large one fires exactly when the subject area
exceeds 1.5× — and the small one exactly when it does not and the area
is below 0.5× — the mean area of the `validComparables` (the line-86
filter survivors, a missing area counting as zero), not of the sanitized
set. -/
theorem size_adjustments_exclusive (area : ℚ) (comparables : List Comparable)
    (features : Features) (r : ValuationResult)
    (hr : calculateLandValue area comparables features = some r) :
    ¬ (Factor.mk "Large Land Size" "-5%" ∈ r.valuationFactors ∧
        Factor.mk "Small Land Size" "+5%" ∈ r.valuationFactors) ∧
      ((pricePerSqFtValues comparables).length < 4 →
        Factor.mk "Large Land Size" "-5%" ∉ r.valuationFactors ∧
        Factor.mk "Small Land Size" "+5%" ∉ r.valuationFactors) ∧
      (4 ≤ (pricePerSqFtValues comparables).length →
        ∃ m, mean ((validComparables comparables).map areaOrZero) = some m ∧
          (Factor.mk "Large Land Size" "-5%" ∈ r.valuationFactors ↔
            m * (3 / 2) < area) ∧
          (Factor.mk "Small Land Size" "+5%" ∈ r.valuationFactors ↔
            (¬ m * (3 / 2) < area ∧ area < m * (1 / 2)))) := by
  have hlen := (sortedPricesOf_perm comparables).length_eq
  by_cases hvc : validComparables comparables = []
  · have hval := pricePerSqFtValues_nil_of_validComparables_nil hvc
    simp only [calculateLandValue, if_pos hvc, Option.some.injEq] at hr
    subst hr
    refine ⟨?_, fun _ => ⟨?_, ?_⟩, fun h4 => absurd h4 (by rw [hval]; simp)⟩ <;>
      · simp only [fallbackEstimate]
        split_ifs <;> decide
  · by_cases hval : pricePerSqFtValues comparables = []
    · simp only [calculateLandValue, if_neg hvc, if_pos hval, Option.some.injEq] at hr
      subst hr
      refine ⟨?_, fun _ => ⟨?_, ?_⟩, fun h4 => absurd h4 (by rw [hval]; simp)⟩ <;>
        simp [defaultFallback]
    · have hsne := sortedPricesOf_ne_nil hval
      by_cases h4 : 4 ≤ (sortedPricesOf comparables).length
      · have hfne := filteredPrices_ne_nil (sortedPricesOf_sorted comparables) h4
        have hqa := mean_eq_some hfne
        have hmapne : (validComparables comparables).map areaOrZero ≠ [] := by
          simpa using hvc
        have hmean := mean_eq_some hmapne
        simp only [calculateLandValue, if_neg hvc, if_neg hval, if_pos h4] at hr
        rw [quartileBranch_eq area features (validComparables comparables)
          (sortedPricesOf comparables) hqa hmean, Option.some.injEq] at hr
        subst hr
        refine ⟨?_, fun hlt => absurd hlt (by omega), fun _ => ⟨_, hmean, ?_, ?_⟩⟩ <;>
          · dsimp only
            split_ifs <;> simp_all
      · obtain ⟨a, hmean, -⟩ := mean_pos hsne fun v hv => mem_sortedPricesOf_pos hv
        simp only [calculateLandValue, if_neg hvc, if_neg hval, if_neg h4] at hr
        rw [limitedBranch_eq area features (sortedPricesOf comparables) hmean,
          Option.some.injEq] at hr
        subst hr
        refine ⟨?_, fun _ => ⟨?_, ?_⟩, fun h4' => absurd h4' (by omega)⟩ <;>
          · dsimp only
            split_ifs <;> decide

/-- Witness for C7: area 2 against the four sample comparables (mean
comparable area 1, so the large-land adjustment fires). -/
theorem size_adjustments_exclusive_witness :
    calculateLandValue 2 sampleComps4 ⟨false, true, true⟩ =
      some ⟨1000, 25, [⟨"Large Land Size", "-5%"⟩, ⟨"Market Trend", "+3%"⟩]⟩ ∧
      (¬ (Factor.mk "Large Land Size" "-5%" ∈
          (⟨1000, 25, [⟨"Large Land Size", "-5%"⟩, ⟨"Market Trend", "+3%"⟩]⟩ :
            ValuationResult).valuationFactors ∧
        Factor.mk "Small Land Size" "+5%" ∈
          (⟨1000, 25, [⟨"Large Land Size", "-5%"⟩, ⟨"Market Trend", "+3%"⟩]⟩ :
            ValuationResult).valuationFactors) ∧
      ((pricePerSqFtValues sampleComps4).length < 4 →
        Factor.mk "Large Land Size" "-5%" ∉
          (⟨1000, 25, [⟨"Large Land Size", "-5%"⟩, ⟨"Market Trend", "+3%"⟩]⟩ :
            ValuationResult).valuationFactors ∧
        Factor.mk "Small Land Size" "+5%" ∉
          (⟨1000, 25, [⟨"Large Land Size", "-5%"⟩, ⟨"Market Trend", "+3%"⟩]⟩ :
            ValuationResult).valuationFactors) ∧
      (4 ≤ (pricePerSqFtValues sampleComps4).length →
        ∃ m, mean ((validComparables sampleComps4).map areaOrZero) = some m ∧
          (Factor.mk "Large Land Size" "-5%" ∈
            (⟨1000, 25, [⟨"Large Land Size", "-5%"⟩, ⟨"Market Trend", "+3%"⟩]⟩ :
              ValuationResult).valuationFactors ↔ m * (3 / 2) < 2) ∧
          (Factor.mk "Small Land Size" "+5%" ∈
            (⟨1000, 25, [⟨"Large Land Size", "-5%"⟩, ⟨"Market Trend", "+3%"⟩]⟩ :
              ValuationResult).valuationFactors ↔
            (¬ m * (3 / 2) < 2 ∧ (2 : ℚ) < m * (1 / 2))))) := by
  have hvals : pricePerSqFtValues sampleComps4 = [10, 20, 30, 40] := by
    norm_num [pricePerSqFtValues, validComparables, validFilter, truthy,
      effectivePricePerSqFt, sampleComps4]
  have hvc : validComparables sampleComps4 = sampleComps4 := by
    norm_num [validComparables, validFilter, truthy, sampleComps4]
  have hsorted : sortedPricesOf sampleComps4 = [10, 20, 30, 40] := by
    rw [sortedPricesOf, hvals]
    norm_num [List.insertionSort, List.orderedInsert]
  have hfp : filteredPrices [10, 20, 30, 40] = [10, 20, 30, 40] := by
    norm_num [filteredPrices, List.getD]
  have hqa : quartileAvg (sortedPricesOf sampleComps4) = some 25 := by
    rw [hsorted, quartileAvg, hfp, mean_eq_some (by simp)]
    norm_num
  have hmap : sampleComps4.map areaOrZero = [1, 1, 1, 1] := by
    norm_num [areaOrZero, sampleComps4]
  have hmean : mean ((validComparables sampleComps4).map areaOrZero) = some 1 := by
    rw [hvc, hmap, mean_eq_some (by simp)]
    norm_num
  have hvcne : ¬ validComparables sampleComps4 = [] := by
    rw [hvc]
    simp [sampleComps4]
  have hvalne : ¬ pricePerSqFtValues sampleComps4 = [] := by
    rw [hvals]
    simp
  have h4 : 4 ≤ (sortedPricesOf sampleComps4).length := by
    rw [hsorted]
    norm_num
  have hcalc : calculateLandValue 2 sampleComps4 ⟨false, true, true⟩ =
      some ⟨1000, 25, [⟨"Large Land Size", "-5%"⟩, ⟨"Market Trend", "+3%"⟩]⟩ := by
    simp only [calculateLandValue, if_neg hvcne, if_neg hvalne, if_pos h4]
    rw [quartileBranch_eq 2 ⟨false, true, true⟩ (validComparables sampleComps4)
      (sortedPricesOf sampleComps4) hqa hmean]
    rw [hsorted]
    norm_num [wFactor, rdFactor, uFactor, sizeFactor, medianOfSorted, List.getD]
  exact ⟨hcalc, size_adjustments_exclusive 2 sampleComps4 ⟨false, true, true⟩ _ hcalc⟩

/-- A store answering stage 1 with 2 matches and stage 2 with 5 more. -/
def twoFiveStore : SelectionStore :=
  { nearbySameZoning := Except.ok [⟨some 1, some 1, some 1⟩, ⟨some 2, some 1, some 2⟩]
    nearbyAnyZoning := Except.ok [⟨some 3, some 1, some 3⟩, ⟨some 4, some 1, some 4⟩,
      ⟨some 5, some 1, some 5⟩, ⟨some 6, some 1, some 6⟩, ⟨some 7, some 1, some 7⟩]
    governorateOf := Except.ok none
    byGovernorate := Except.ok []
    anyProperties := Except.ok [] }

/-- **C8, counterexample.** With 2 stage-1 matches and 5 stage-2 results,
stage 2's `limit(10 - count)` takes all 5 extra, so the selection returns
7 observations — not the 5 the claim (and spec property P5) predicts. -/
theorem selection_widening_counterexample :
    selectComparables twoFiveStore =
      Except.ok [⟨some 1, some 1, some 1⟩, ⟨some 2, some 1, some 2⟩,
        ⟨some 3, some 1, some 3⟩, ⟨some 4, some 1, some 4⟩,
        ⟨some 5, some 1, some 5⟩, ⟨some 6, some 1, some 6⟩, ⟨some 7, some 1, some 7⟩] ∧
      ([⟨some 1, some 1, some 1⟩, ⟨some 2, some 1, some 2⟩,
        ⟨some 3, some 1, some 3⟩, ⟨some 4, some 1, some 4⟩,
        ⟨some 5, some 1, some 5⟩, ⟨some 6, some 1, some 6⟩,
        (⟨some 7, some 1, some 7⟩ : Comparable)] : List Comparable).length ≠ 5 := by
  constructor
  · rfl
  · decide

/-- **C8, amended.** Each widening stage runs only while its gate is
still open (stage 2 when the count is below 5 — when a stage-1 batch
already meets that gate, the stage-2 store field is never consulted —
stages 3 and 4 when it is below 3), but stage 2 appends up to
`10 − count` results, not up to the minimum: with 2 stage-1 matches and
5 available stage-2 results the selection returns exactly 7
observations, and stage 3 is never consulted (the result is independent
of the geocoder and governorate-query fields). -/
theorem selection_widening_amended (store : SelectionStore)
    (s1 s2 : List Comparable)
    (h1 : store.nearbySameZoning = Except.ok s1) (hl1 : s1.length = 2)
    (h2 : store.nearbyAnyZoning = Except.ok s2) (hl2 : s2.length = 5) :
    selectComparables store = Except.ok (s1 ++ s2) ∧
      (s1 ++ s2).length = 7 ∧
      (∀ g b, selectComparables
        { store with governorateOf := g, byGovernorate := b } =
          Except.ok (s1 ++ s2)) ∧
      (∀ (st : SelectionStore) (t1 : List Comparable),
        st.nearbySameZoning = Except.ok t1 → ¬ (t1.take 10).length < 5 →
        ∀ f2, selectComparables { st with nearbyAnyZoning := f2 } =
          selectComparables st) := by
  have gate2 : ∀ (st : SelectionStore) (t1 : List Comparable),
      st.nearbySameZoning = Except.ok t1 → ¬ (t1.take 10).length < 5 →
      ∀ f2, selectComparables { st with nearbyAnyZoning := f2 } =
        selectComparables st := by
    intro st t1 ht hgate f2'
    obtain ⟨g1, g2, g3, g4, g5⟩ := st
    simp only at ht
    subst ht
    simp only [selectComparables]
    rw [if_neg hgate, if_neg hgate]
  obtain ⟨f1, f2, f3, f4, f5⟩ := store
  simp only at h1 h2
  subst h1
  subst h2
  have ht1 : s1.take 10 = s1 := List.take_of_length_le (by omega)
  have hlen7 : (s1 ++ s2).length = 7 := by
    simp [hl1, hl2]
  have hne : ¬ s1 ++ s2 = [] := by
    intro h
    rw [h] at hlen7
    simp at hlen7
  have main : ∀ (g : Except String (Option String))
      (b : Except String (List Comparable)),
      selectComparables ⟨Except.ok s1, Except.ok s2, g, b, f5⟩ =
        Except.ok (s1 ++ s2) := by
    intro g b
    simp only [selectComparables, ht1]
    rw [if_pos (show s1.length < 5 by omega)]
    rw [List.take_of_length_le (show s2.length ≤ 10 - s1.length by omega)]
    dsimp only
    rw [if_neg (show ¬ (s1 ++ s2).length < 3 by omega)]
    rw [if_neg (show ¬ (s1 ++ s2).length < 3 by omega)]
    dsimp only
    rw [if_neg hne]
  exact ⟨main f3 f4, hlen7, fun g b => main g b, gate2⟩

/-- Witness for C8 (amended) at the concrete two-plus-five store. -/
theorem selection_widening_amended_witness :
    twoFiveStore.nearbySameZoning =
        Except.ok [⟨some 1, some 1, some 1⟩, ⟨some 2, some 1, some 2⟩] ∧
      ([(⟨some 1, some 1, some 1⟩ : Comparable), ⟨some 2, some 1, some 2⟩]).length = 2 ∧
      (selectComparables twoFiveStore =
        Except.ok (([⟨some 1, some 1, some 1⟩, ⟨some 2, some 1, some 2⟩] : List Comparable) ++
          ([⟨some 3, some 1, some 3⟩, ⟨some 4, some 1, some 4⟩,
            ⟨some 5, some 1, some 5⟩, ⟨some 6, some 1, some 6⟩,
            ⟨some 7, some 1, some 7⟩] : List Comparable)) ∧
        (([⟨some 1, some 1, some 1⟩, ⟨some 2, some 1, some 2⟩] : List Comparable) ++
          ([⟨some 3, some 1, some 3⟩, ⟨some 4, some 1, some 4⟩,
            ⟨some 5, some 1, some 5⟩, ⟨some 6, some 1, some 6⟩,
            ⟨some 7, some 1, some 7⟩] : List Comparable)).length = 7 ∧
        (∀ g b, selectComparables
          { twoFiveStore with governorateOf := g, byGovernorate := b } =
            Except.ok (([⟨some 1, some 1, some 1⟩, ⟨some 2, some 1, some 2⟩] : List Comparable) ++
              ([⟨some 3, some 1, some 3⟩, ⟨some 4, some 1, some 4⟩,
                ⟨some 5, some 1, some 5⟩, ⟨some 6, some 1, some 6⟩,
                ⟨some 7, some 1, some 7⟩] : List Comparable))) ∧
        (∀ (st : SelectionStore) (t1 : List Comparable),
          st.nearbySameZoning = Except.ok t1 → ¬ (t1.take 10).length < 5 →
          ∀ f2, selectComparables { st with nearbyAnyZoning := f2 } =
            selectComparables st)) :=
  ⟨rfl, by decide,
    selection_widening_amended twoFiveStore _ _ rfl (by decide) rfl (by decide)⟩

/-- A store whose stage-1 nearby query throws. -/
def downStore : SelectionStore :=
  { nearbySameZoning := Except.error "store down"
    nearbyAnyZoning := Except.ok []
    governorateOf := Except.ok none
    byGovernorate := Except.ok []
    anyProperties := Except.ok [] }

/-- **C9, counterexample.** A store error in widening stage 1 is not
caught locally: it escapes the selection pipeline (to the route's outer
`catch`, which answers 500), instead of being treated as a stage with
zero results. -/
theorem selection_error_counterexample :
    selectComparables downStore = Except.error "store down" := rfl

/-- **C9, amended.** Only stage 3 recovers locally: a geocoder error, or
a governorate-query error, behaves exactly like "no governorate found"
(zero stage-3 results) and the pipeline continues; but a store error in
stage 1 — or in stage 2 or stage 4 while the respective gate is open —
propagates out of the selection pipeline as an error. -/
theorem selection_error_amended :
    (∀ (store : SelectionStore) e, store.nearbySameZoning = Except.error e →
      selectComparables store = Except.error e) ∧
    (∀ (store : SelectionStore) e,
      selectComparables { store with governorateOf := Except.error e } =
        selectComparables { store with governorateOf := Except.ok none }) ∧
    (∀ (store : SelectionStore) gov e,
      selectComparables
          { store with governorateOf := Except.ok (some gov), byGovernorate := Except.error e } =
        selectComparables
          { store with governorateOf := Except.ok none, byGovernorate := Except.error e }) ∧
    (∀ (store : SelectionStore) e s1, store.nearbySameZoning = Except.ok s1 →
      (s1.take 10).length < 5 → store.nearbyAnyZoning = Except.error e →
      selectComparables store = Except.error e) ∧
    (∀ (store : SelectionStore) e s1 s2,
      store.nearbySameZoning = Except.ok s1 →
      (s1.take 10).length < 5 →
      store.nearbyAnyZoning = Except.ok s2 →
      (s1.take 10 ++ s2.take (10 - (s1.take 10).length)).length < 3 →
      store.governorateOf = Except.ok none →
      store.anyProperties = Except.error e →
      selectComparables store = Except.error e) := by
  refine ⟨?_, ?_, ?_, ?_, ?_⟩
  · intro store e h
    obtain ⟨f1, f2, f3, f4, f5⟩ := store
    simp only at h
    subst h
    rfl
  · intro store e
    rfl
  · intro store gov e
    rfl
  · intro store e s1 h1 hlt h2
    obtain ⟨f1, f2, f3, f4, f5⟩ := store
    simp only at h1 h2
    subst h1
    subst h2
    simp only [selectComparables]
    rw [if_pos hlt]
  · intro store e s1 s2 h1 hg2 h2 hg3 h3 h4
    obtain ⟨f1, f2, f3, f4, f5⟩ := store
    simp only at h1 h2 h3 h4
    subst h1
    subst h2
    subst h3
    subst h4
    simp only [selectComparables]
    rw [if_pos hg2]
    dsimp only
    rw [if_pos hg3]
    rw [if_pos hg3]

/-- Witness for C9 (amended): a concrete stage-1 failure and a concrete
stage-4 failure reached with open gates. -/
theorem selection_error_amended_witness :
    downStore.nearbySameZoning = Except.error "store down" ∧
      selectComparables downStore = Except.error "store down" ∧
      selectComparables
        ⟨Except.ok [], Except.ok [], Except.ok none, Except.ok [], Except.error "db down"⟩ =
        Except.error "db down" :=
  ⟨rfl, selection_error_amended.1 downStore "store down" rfl,
    selection_error_amended.2.2.2.2
      ⟨Except.ok [], Except.ok [], Except.ok none, Except.ok [], Except.error "db down"⟩
      "db down" [] [] rfl (by decide) rfl (by decide) rfl rfl⟩

/-- **C10, counterexample.** Express delivers urlencoded (and many JSON)
bodies with string fields: the string "0" is truthy, so a request with
lat = "0", lng = "0" passes the truthiness checks, parses to the number
0 and is accepted — the in-range coordinate (0, 0) CAN be valued,
refuting the claim's consequence. -/
theorem truthiness_validation_counterexample :
    validateEstimateRequest (.str "0" (some 0)) (.str "0" (some 0))
      (.str "100" (some 100)) = ValidationOutcome.accepted 0 0 100 := by
  decide

/-- **C10, amended.** The endpoint tests `lat`, `lng` and `area` by
JavaScript truthiness, so the NUMBER 0 in any of them yields the 400
"required" rejection before numeric parsing, and a request whose three
fields are JSON numbers can never be accepted with latitude 0; but the
STRING "0" is truthy and parses to 0, so the coordinate (0, 0) can still
be valued when the fields arrive as strings. -/
theorem truthiness_validation :
    (∀ lng area, validateEstimateRequest (.num 0) lng area =
      ValidationOutcome.rejected 400 "Latitude and longitude are required") ∧
    (∀ lat area, validateEstimateRequest lat (.num 0) area =
      ValidationOutcome.rejected 400 "Latitude and longitude are required") ∧
    (∀ lat lng, truthyField lat = true → truthyField lng = true →
      validateEstimateRequest lat lng (.num 0) =
        ValidationOutcome.rejected 400 "Land area is required") ∧
    (∀ (la ln ar : ℚ) l2 a2,
      validateEstimateRequest (.num la) (.num ln) (.num ar) ≠
        ValidationOutcome.accepted 0 l2 a2) ∧
    validateEstimateRequest (.str "0" (some 0)) (.str "0" (some 0))
      (.str "100" (some 100)) = ValidationOutcome.accepted 0 0 100 := by
  refine ⟨fun lng area => rfl, ?_, ?_, ?_, by decide⟩
  · intro lat area
    simp [validateEstimateRequest, truthyField]
  · intro lat lng h1 h2
    unfold validateEstimateRequest
    rw [h1, h2]
    norm_num [truthyField]
  · intro la ln ar l2 a2 h
    unfold validateEstimateRequest at h
    by_cases h1 : (!truthyField (.num la) || !truthyField (.num ln)) = true
    · rw [if_pos h1] at h
      exact ValidationOutcome.noConfusion h
    · rw [if_neg h1] at h
      by_cases h2 : (!truthyField (FieldValue.num ar)) = true
      · rw [if_pos h2] at h
        exact ValidationOutcome.noConfusion h
      · rw [if_neg h2] at h
        dsimp only at h
        by_cases h3 : ((parseFloatField (FieldValue.num la)).isNone ||
            (parseFloatField (FieldValue.num ln)).isNone) = true
        · rw [if_pos h3] at h
          exact ValidationOutcome.noConfusion h
        · rw [if_neg h3] at h
          by_cases h4 : ((parseFloatField (FieldValue.num ar)).isNone ||
              decide ((parseFloatField (FieldValue.num ar)).getD 0 ≤ 0)) = true
          · rw [if_pos h4] at h
            exact ValidationOutcome.noConfusion h
          · rw [if_neg h4] at h
            injection h with hl hlng harea
            simp only [parseFloatField, Option.getD_some] at hl
            have hlat : truthyField (FieldValue.num la) = true := by
              cases hb : truthyField (FieldValue.num la)
              · exact absurd (by rw [Bool.or_eq_true]; left; rw [hb]; rfl) h1
              · rfl
            have hne : la ≠ 0 := by simpa [truthyField] using hlat
            exact hne hl

/-- Witness for C10 (amended): the area clause at truthy numeric
coordinates. -/
theorem truthiness_validation_witness :
    truthyField (.num 5) = true ∧
      validateEstimateRequest (.num 5) (.num 5) (.num 0) =
        ValidationOutcome.rejected 400 "Land area is required" :=
  ⟨by decide, truthiness_validation.2.2.1 (.num 5) (.num 5) (by decide) (by decide)⟩

end ScrapBack
